import Mathlib

/-!
# Verification of the bvzos deduplicating copy engine

A shallow embedding of the `bvzos` Python package (modules
`bvzos.compare.comparefiles`, `bvzos.compare.comparesession`,
`bvzos.compare.canonicalfiles`, `bvzos.copyfiles.versionedfiles`) together
with theorems settling the specification's claims about it.

Python values and control flow are translated as follows: machine-level
byte strings become `List Nat`; `None`/falsy handling becomes `Option`
plus explicit truthiness predicates; exceptions become `Except PyErr`;
the filesystem becomes an explicit association of absolute paths to
entries, threaded through every mutating function.
-/

/-- The Python exception classes raised (or caught) by the embedded code. -/
inductive PyErr
  | assertError
  | valueError
  | typeError
  | osError
  | ioError
  | keyError
  deriving DecidableEq, Repr

/-- Hexadecimal digit character for `n < 16`. -/
def hexDigit (n : Nat) : Char :=
  if n < 10 then Char.ofNat (48 + n) else Char.ofNat (87 + n % 16)

/-- Two-character hexadecimal rendering of one byte. -/
def byteHex (b : Nat) : String :=
  String.mk [hexDigit (b / 16 % 16), hexDigit (b % 16)]

/-- Model of `hashlib.md5(bytes).hexdigest()`: the digest of the byte
sequence fed to the hash object so far.  MD5 itself is outside the
program under verification (it comes from Python's standard library), so
it is modelled as an injective digest: the real MD5 digest of the empty
input followed by the hex rendering of the bytes.  The development relies
only on the digest being a deterministic function of the bytes digested so
far and on it never being the empty string. -/
def md5hex (bs : List Nat) : String :=
  bs.foldl (fun acc b => acc ++ byteHex b) "d41d8cd98f00b204e9800998ecf8427e"

/-- The read size `128 * md5.block_size` of the hashing loops
(`f.read(128 * md5.block_size)` with an md5 block size of 64 bytes). -/
def chunkSize : Nat := 128 * 64

/-- The digests yielded by `md5_hash_generator`'s loop over the remaining
bytes `bs`, where `pre` are the bytes already digested: one cumulative
digest per nonempty chunk read.  Structural fuel recursion; the caller
passes `bs.length` as fuel, which always suffices because every step
consumes at least one byte. -/
def genDigestsAux (pre : List Nat) : Nat → List Nat → List String
  | _, [] => []
  | 0, _ :: _ => []
  | fuel + 1, b :: bs =>
    let chunk := (b :: bs).take chunkSize
    md5hex (pre ++ chunk) :: genDigestsAux (pre ++ chunk) fuel ((b :: bs).drop chunkSize)

/-- Function `md5_hash_generator` applied to a file whose bytes are `bs`: the lazy
sequence of intermediate digests, one per chunk read. -/
def genDigests (bs : List Nat) : List String :=
  genDigestsAux [] bs.length bs

/-- The lockstep loop of `md5_parallel_match`: `acc` is the current value
of the Python local `checksum_a` (initially `""`).  `next` on an exhausted
first sequence returns the previous `checksum_a`; on an exhausted second
sequence it returns the freshly assigned `checksum_a`; a digest mismatch
returns `False`, modelled as `none`. -/
def parallelAux : List String → List String → String → Option String
  | [], _, acc => some acc
  | a :: _, [], _ => some a
  | a :: as, b :: bs, _ => if a = b then parallelAux as bs a else none

/-- One filesystem entry: a regular file with its bytes, a directory, or a
symbolic link recording its target path. -/
inductive Entry
  | file (bytes : List Nat)
  | dir
  | link (target : String)
  deriving DecidableEq, Repr

/-- A filesystem: a finite association of absolute paths to entries.  The
first binding of a path is the authoritative one. -/
abbrev FS := List (String × Entry)

/-- Look a path up in the filesystem without following symlinks
(`os.stat(..., follow_symlinks=False)` / `os.path.islink` view). -/
def fsLookup (fs : FS) (p : String) : Option Entry :=
  (fs.find? (fun e => e.1 == p)).map (·.2)

/-- Follow symlink chains, with fuel bounding the chain length (a cycle or
a dangling link resolves to nothing, as `os.path.exists` reports). -/
def resolveFuel (fs : FS) : Nat → String → Option Entry
  | 0, _ => none
  | fuel + 1, p =>
    match fsLookup fs p with
    | some (Entry.link t) => resolveFuel fs fuel t
    | e => e

/-- Resolve a path, following symlinks (`fs.length + 1` fuel exceeds any
acyclic chain through the finitely many entries). -/
def resolve (fs : FS) (p : String) : Option Entry :=
  resolveFuel fs (fs.length + 1) p

/-- Model of `os.path.exists`: follows symlinks; a dangling symlink does not exist. -/
def pathExists (fs : FS) (p : String) : Bool :=
  (resolve fs p).isSome

/-- Model of `os.path.isdir`: follows symlinks. -/
def isDir (fs : FS) (p : String) : Bool :=
  resolve fs p == some Entry.dir

/-- Model of `os.path.islink`: does not follow symlinks. -/
def isLink (fs : FS) (p : String) : Bool :=
  match fsLookup fs p with
  | some (Entry.link _) => true
  | _ => false

/-- Model of `os.path.isfile`: follows symlinks. -/
def isFile (fs : FS) (p : String) : Bool :=
  match resolve fs p with
  | some (Entry.file _) => true
  | _ => false

/-- Model of `open(p, 'rb').read()`: follows symlinks; fails (None) when the path is
missing or a directory. -/
def openBytes (fs : FS) (p : String) : Option (List Nat) :=
  match resolve fs p with
  | some (Entry.file bs) => some bs
  | _ => none

/-- Model of `os.stat(p, follow_symlinks=False).st_size`. -/
def sizeNoFollow (fs : FS) (p : String) : Option Nat :=
  match fsLookup fs p with
  | some (Entry.file bs) => some bs.length
  | some Entry.dir => some 0
  | some (Entry.link t) => some t.length
  | none => none

/-- Function `md5_hash` (comparefiles.py): opens the file and digests it in one
pass.  It performs no validation of its own: a missing path or a
directory makes the `open` raise an `OSError`; a symlink is followed and
the target's bytes are hashed. -/
def md5_hash (fs : FS) (p : String) : Except PyErr String :=
  match openBytes fs p with
  | some bs => Except.ok (md5hex bs)
  | none => Except.error PyErr.osError

/-- Function `md5_parallel_match` (comparefiles.py): drives the two digest
generators in lockstep; `none` models its `return False`. -/
def md5_parallel_match (fs : FS) (a b : String) : Except PyErr (Option String) :=
  match openBytes fs a, openBytes fs b with
  | some as, some bs => Except.ok (parallelAux (genDigests as) (genDigests bs) "")
  | _, _ => Except.error PyErr.osError

/-- The conjunction of `compare_files`' three asserts on one path: it
exists, is not a directory and is not a symlink. -/
def validFile (fs : FS) (p : String) : Bool :=
  pathExists fs p && !isDir fs p && !isLink fs p

/-- Python truthiness of an optional string (`if checksum:`;
`None` and `""` are falsy). -/
def optStrTruthy : Option String → Bool
  | none => false
  | some s => !(s == "")

/-- Function `compare_files` (comparefiles.py).  Asserts both paths are valid
regular files, hashes once for a self-compare, answers `False` (`none`)
on a size mismatch, compares in parallel when neither checksum is
precomputed, and otherwise compares the (possibly precomputed) full
digests, returning `checksum_b` on a match. -/
def compare_files (fs : FS) (file_a_p file_b_p : String)
    (file_a_checksum file_b_checksum : Option String) : Except PyErr (Option String) :=
  if !validFile fs file_a_p || !validFile fs file_b_p then
    Except.error PyErr.assertError
  else if file_a_p = file_b_p then
    (md5_hash fs file_a_p).map some
  else if sizeNoFollow fs file_a_p ≠ sizeNoFollow fs file_b_p then
    Except.ok none
  else if file_a_checksum = none ∧ file_b_checksum = none then
    md5_parallel_match fs file_a_p file_b_p
  else
    match (match file_a_checksum with
           | some s => Except.ok s
           | none => md5_hash fs file_a_p),
          (match file_b_checksum with
           | some s => Except.ok s
           | none => md5_hash fs file_b_p) with
    | Except.ok ca, Except.ok cb => Except.ok (if ca = cb then some cb else none)
    | Except.error e, _ => Except.error e
    | _, Except.error e => Except.error e

/-! ## Basic lemmas about the filesystem view and the digest generators -/

/-- A path bound directly to a regular file resolves to that file. -/
theorem resolve_of_file {fs : FS} {p : String} {bs : List Nat}
    (h : fsLookup fs p = some (Entry.file bs)) : resolve fs p = some (Entry.file bs) := by
  simp [resolve, resolveFuel, h]

/-- A path bound directly to a regular file passes all three asserts. -/
theorem validFile_of_file {fs : FS} {p : String} {bs : List Nat}
    (h : fsLookup fs p = some (Entry.file bs)) : validFile fs p = true := by
  simp [validFile, pathExists, isDir, isLink, resolve_of_file h, h]

/-- Opening a path bound directly to a regular file yields its bytes. -/
theorem openBytes_of_file {fs : FS} {p : String} {bs : List Nat}
    (h : fsLookup fs p = some (Entry.file bs)) : openBytes fs p = some bs := by
  simp [openBytes, resolve_of_file h]

/-- Walking two identical digest sequences never mismatches and ends on
the last digest (or on `acc` when the sequence is empty). -/
theorem parallelAux_self (l : List String) (acc : String) :
    parallelAux l l acc = some (l.getLastD acc) := by
  induction l generalizing acc with
  | nil => rfl
  | cons a as ih =>
    rw [parallelAux, if_pos rfl, ih, List.getLastD_cons]

/-- The last digest yielded by the generator loop is the digest of all the
bytes, provided the fuel covers the remaining length. -/
theorem genDigestsAux_getLastD (fuel : Nat) :
    ∀ (pre bs : List Nat) (d : String), bs ≠ [] → bs.length ≤ fuel →
      (genDigestsAux pre fuel bs).getLastD d = md5hex (pre ++ bs) := by
  induction fuel with
  | zero =>
    intro pre bs d hne hle
    cases bs with
    | nil => exact absurd rfl hne
    | cons b bs => simp at hle
  | succ fuel ih =>
    intro pre bs d hne hle
    cases bs with
    | nil => exact absurd rfl hne
    | cons b bs =>
      show ((genDigestsAux pre (fuel + 1) (b :: bs))).getLastD d = _
      rw [genDigestsAux]
      by_cases hdrop : (b :: bs).drop chunkSize = []
      · have htake : (b :: bs).take chunkSize = b :: bs :=
          List.take_of_length_le (List.drop_eq_nil_iff.mp hdrop)
        simp [hdrop, genDigestsAux, htake, List.getLastD_cons]
      · have hlen : ((b :: bs).drop chunkSize).length ≤ fuel := by
          rw [List.length_drop]
          have hc : 0 < chunkSize := by norm_num [chunkSize]
          have : (b :: bs).length ≤ fuel + 1 := hle
          omega
        rw [List.getLastD_cons]
        rw [ih (pre ++ (b :: bs).take chunkSize) ((b :: bs).drop chunkSize) _ hdrop hlen]
        rw [List.append_assoc, List.take_append_drop]

/-- The last digest the generator yields over a nonempty file is the full
digest that `md5_hash` computes. -/
theorem genDigests_getLastD (bs : List Nat) (d : String) (hne : bs ≠ []) :
    (genDigests bs).getLastD d = md5hex bs := by
  have := genDigestsAux_getLastD bs.length [] bs d hne (Nat.le_refl _)
  simpa [genDigests] using this

/-! ## Claims about the checksum engine -/

/-- Two byte-identical zero-length files. -/
def fsZero : FS := [("/a", Entry.file []), ("/b", Entry.file [])]

/-- Two byte-identical files with content `[1, 2]`. -/
def fsTwo : FS := [("/a", Entry.file [1, 2]), ("/b", Entry.file [1, 2])]

/-- A symlink `/ln` to a regular file `/t` with content `[65]`. -/
def fsLn : FS := [("/ln", Entry.link "/t"), ("/t", Entry.file [65])]

/-- C3 counterexample: for two byte-identical zero-length files the digest
generators yield nothing, so `md5_parallel_match` falls out of its loop at
once and `compare_files` returns the initial `checksum_a`, the empty
string — not `md5_hash(f)`, which is the MD5 digest of the empty input. -/
theorem compare_files_zero_length_cex :
    compare_files fsZero "/a" "/b" none none = Except.ok (some "") ∧
    md5_hash fsZero "/a" = Except.ok "d41d8cd98f00b204e9800998ecf8427e" ∧
    ("" : String) ≠ "d41d8cd98f00b204e9800998ecf8427e" :=
  ⟨rfl, rfl, by decide⟩

/-- C3 (amended): for byte-identical regular non-symlink files of nonzero
length, `compare_files` with no precomputed checksums returns a digest
equal to `md5_hash(f)`; (for zero-length identical files it instead
returns the empty string, which is falsy to its callers). -/
theorem compare_files_identical_nonzero (fs : FS) (a b : String) (cs : List Nat)
    (hab : a ≠ b)
    (ha : fsLookup fs a = some (Entry.file cs))
    (hb : fsLookup fs b = some (Entry.file cs))
    (hcs : cs ≠ []) :
    compare_files fs a b none none = Except.ok (some (md5hex cs)) ∧
    md5_hash fs a = Except.ok (md5hex cs) := by
  constructor
  · simp [compare_files, validFile_of_file ha, validFile_of_file hb, hab,
      sizeNoFollow, ha, hb, md5_parallel_match, openBytes_of_file ha,
      openBytes_of_file hb, parallelAux_self, ← List.getLastD_eq_getLast?,
      genDigests_getLastD cs "" hcs]
  · simp [md5_hash, openBytes_of_file ha]

/-- Witness for `compare_files_identical_nonzero` at a concrete input. -/
theorem compare_files_identical_nonzero_witness :
    compare_files fsTwo "/a" "/b" none none = Except.ok (some (md5hex [1, 2])) ∧
    md5_hash fsTwo "/a" = Except.ok (md5hex [1, 2]) :=
  compare_files_identical_nonzero fsTwo "/a" "/b" [1, 2] (by decide) rfl rfl (by decide)

/-- C7 counterexample: `md5_hash` does not fail on a symbolic link — it
follows the link and returns the digest of the target's bytes. -/
theorem md5_hash_symlink_cex :
    isLink fsLn "/ln" = true ∧ md5_hash fsLn "/ln" = Except.ok (md5hex [65]) :=
  ⟨rfl, rfl⟩

/-- C7 (amended): `md5_hash` performs no validation of its own.  On a
symbolic link whose target is a regular file it succeeds and returns the
digest of the target's bytes; only a path whose `open` fails (missing, or
a directory) raises, and that is an `OSError` from `open`, not a
validation error. -/
theorem md5_hash_follows_symlink (fs : FS) (p t : String) (bs : List Nat)
    (hp : fsLookup fs p = some (Entry.link t))
    (ht : fsLookup fs t = some (Entry.file bs)) :
    isLink fs p = true ∧ md5_hash fs p = Except.ok (md5hex bs) := by
  cases fs with
  | nil => simp [fsLookup] at hp
  | cons hd tl =>
    refine ⟨by simp [isLink, hp], ?_⟩
    simp [md5_hash, openBytes, resolve, resolveFuel, hp, ht]

/-- Witness for `md5_hash_follows_symlink` at a concrete input. -/
theorem md5_hash_follows_symlink_witness :
    isLink fsLn "/ln" = true ∧ md5_hash fsLn "/ln" = Except.ok (md5hex [65]) :=
  md5_hash_follows_symlink fsLn "/ln" "/t" [65] rfl rfl

/-- C10: with both checksums precomputed, `compare_files` on two distinct
existing regular files of equal size decides purely by comparing the two
supplied strings — for every possible file contents of that size — and
returns `file_b_checksum` on agreement and no-match (`none`) otherwise. -/
theorem compare_files_precomputed (fs : FS) (a b : String) (as bs : List Nat)
    (ca cb : String) (hab : a ≠ b)
    (ha : fsLookup fs a = some (Entry.file as))
    (hb : fsLookup fs b = some (Entry.file bs))
    (hlen : as.length = bs.length) :
    compare_files fs a b (some ca) (some cb) =
      Except.ok (if ca = cb then some cb else none) := by
  simp [compare_files, validFile_of_file ha, validFile_of_file hb, hab,
    sizeNoFollow, ha, hb, hlen]

/-- Witness for `compare_files_precomputed`: files with different bytes
`[0]` and `[9]` compare equal when the supplied checksums agree, and
unequal when they differ. -/
theorem compare_files_precomputed_witness :
    compare_files [("/a", Entry.file [0]), ("/b", Entry.file [9])] "/a" "/b"
        (some "x") (some "x") = Except.ok (some "x") ∧
    compare_files [("/a", Entry.file [0]), ("/b", Entry.file [9])] "/a" "/b"
        (some "x") (some "y") = Except.ok none := by
  constructor
  · simpa using compare_files_precomputed [("/a", Entry.file [0]), ("/b", Entry.file [9])]
      "/a" "/b" [0] [9] "x" "x" (by decide) rfl rfl rfl
  · simpa using compare_files_precomputed [("/a", Entry.file [0]), ("/b", Entry.file [9])]
      "/a" "/b" [0] [9] "x" "y" (by decide) rfl rfl rfl

/-! ## The attribute index (canonicalfiles.py) -/

/-- Python truthiness of an optional numeric or time key (`if ctime:`;
`None` and `0` are falsy).  Timestamps are modelled as naturals. -/
def optNatTruthy : Option Nat → Bool
  | none => false
  | some n => !(n == 0)

/-- The seven inverted sub-indices of `CanonicalFiles`: association lists
from attribute value to the set (list without duplicates) of file paths
indexed under it. -/
structure CanonicalFiles where
  by_size : List (Nat × List String)
  by_name : List (String × List String)
  by_type : List (String × List String)
  by_parent : List (String × List String)
  by_rel_path : List (String × List String)
  by_ctime : List (Nat × List String)
  by_mtime : List (Nat × List String)
  deriving Repr

/-- A `CanonicalFiles` with every sub-index empty (a fresh scan object
before any file is appended). -/
def CanonicalFiles.empty : CanonicalFiles :=
  ⟨[], [], [], [], [], [], []⟩

/-- One step of `get_intersection`'s per-attribute block: when the
attribute is truthy, a missing key short-circuits the whole query
(`return set()`, modelled as `none`), otherwise its set is collected. -/
def addAttr (sets : Option (List (List String))) (truthy : Bool)
    (found : Option (List String)) : Option (List (List String)) :=
  match sets with
  | none => none
  | some ss =>
    if truthy then
      match found with
      | none => none
      | some s => some (ss ++ [s])
    else some ss

/-- Method `CanonicalFiles.get_intersection`: start from the paths indexed under
`size` (empty if absent), collect each truthy attribute's set —
short-circuiting to the empty set when a truthy attribute's key is absent
from its sub-index — then intersect everything with the size set. -/
def get_intersection (cf : CanonicalFiles) (size : Nat)
    (name file_type parent rel_path : Option String)
    (ctime mtime : Option Nat) : List String :=
  let size_set := (cf.by_size.lookup size).getD []
  let attrs : List (Bool × Option (List String)) :=
    [(optStrTruthy name, name.bind (fun v => cf.by_name.lookup v)),
     (optStrTruthy file_type, file_type.bind (fun v => cf.by_type.lookup v)),
     (optStrTruthy parent, parent.bind (fun v => cf.by_parent.lookup v)),
     (optStrTruthy rel_path, rel_path.bind (fun v => cf.by_rel_path.lookup v)),
     (optNatTruthy ctime, ctime.bind (fun v => cf.by_ctime.lookup v)),
     (optNatTruthy mtime, mtime.bind (fun v => cf.by_mtime.lookup v))]
  match attrs.foldl (fun acc a => addAttr acc a.1 a.2) (some []) with
  | none => []
  | some ss => size_set.filter (fun p => ss.all (fun s => s.contains p))

/-- Once the collection has short-circuited, it stays short-circuited. -/
theorem foldl_addAttr_none (l : List (Bool × Option (List String))) :
    l.foldl (fun acc a => addAttr acc a.1 a.2) none = none := by
  induction l with
  | nil => rfl
  | cons a as ih => simpa [addAttr] using ih

/-- A truthy attribute whose key is absent from its sub-index forces the
whole collection to short-circuit. -/
theorem foldl_addAttr_of_mem (l : List (Bool × Option (List String)))
    (init : Option (List (List String)))
    (h : (true, (none : Option (List String))) ∈ l) :
    l.foldl (fun acc a => addAttr acc a.1 a.2) init = none := by
  induction l generalizing init with
  | nil => simp at h
  | cons a as ih =>
    rcases List.mem_cons.mp h with h1 | h2
    · subst h1
      cases init with
      | none => exact foldl_addAttr_none _
      | some ss => simpa [addAttr] using foldl_addAttr_none as
    · exact ih _ h2

/-- C6: (i) if any supplied (truthy) optional attribute value is absent
from its sub-index, `get_intersection` returns the empty set, whatever the
size set and the other attributes hold; (ii) with no optional attributes
supplied it returns exactly the set of paths indexed under the given size
(empty if the size is absent). -/
theorem get_intersection_spec (cf : CanonicalFiles) (size : Nat)
    (name file_type parent rel_path : Option String) (ctime mtime : Option Nat) :
    (((∃ v, name = some v ∧ v ≠ "" ∧ cf.by_name.lookup v = none) ∨
      (∃ v, file_type = some v ∧ v ≠ "" ∧ cf.by_type.lookup v = none) ∨
      (∃ v, parent = some v ∧ v ≠ "" ∧ cf.by_parent.lookup v = none) ∨
      (∃ v, rel_path = some v ∧ v ≠ "" ∧ cf.by_rel_path.lookup v = none) ∨
      (∃ v, ctime = some v ∧ v ≠ 0 ∧ cf.by_ctime.lookup v = none) ∨
      (∃ v, mtime = some v ∧ v ≠ 0 ∧ cf.by_mtime.lookup v = none)) →
      get_intersection cf size name file_type parent rel_path ctime mtime = []) ∧
    get_intersection cf size none none none none none none =
      (cf.by_size.lookup size).getD [] := by
  constructor
  · intro h
    have hmem : (true, (none : Option (List String))) ∈
        [(optStrTruthy name, name.bind (fun v => cf.by_name.lookup v)),
         (optStrTruthy file_type, file_type.bind (fun v => cf.by_type.lookup v)),
         (optStrTruthy parent, parent.bind (fun v => cf.by_parent.lookup v)),
         (optStrTruthy rel_path, rel_path.bind (fun v => cf.by_rel_path.lookup v)),
         (optNatTruthy ctime, ctime.bind (fun v => cf.by_ctime.lookup v)),
         (optNatTruthy mtime, mtime.bind (fun v => cf.by_mtime.lookup v))] := by
      rcases h with ⟨v, hv, hne, hl⟩ | ⟨v, hv, hne, hl⟩ | ⟨v, hv, hne, hl⟩ |
        ⟨v, hv, hne, hl⟩ | ⟨v, hv, hne, hl⟩ | ⟨v, hv, hne, hl⟩ <;>
        subst hv <;> simp [optStrTruthy, optNatTruthy, hne, hl]
    rw [get_intersection]
    rw [foldl_addAttr_of_mem _ _ hmem]
  · rw [get_intersection]
    simp [optStrTruthy, optNatTruthy, addAttr]

/-- Witness for `get_intersection_spec`: a size set containing `/x` whose
query also supplies a name absent from the name sub-index comes back
empty, and the bare size query returns the size set. -/
theorem get_intersection_spec_witness :
    get_intersection ⟨[(7, ["/x"])], [], [], [], [], [], []⟩ 7
        (some "nope") none none none none none = [] ∧
    get_intersection ⟨[(7, ["/x"])], [], [], [], [], [], []⟩ 7
        none none none none none none = ["/x"] := by
  constructor
  · exact (get_intersection_spec ⟨[(7, ["/x"])], [], [], [], [], [], []⟩ 7
      (some "nope") none none none none none).1 (Or.inl ⟨"nope", rfl, by decide, rfl⟩)
  · simpa using (get_intersection_spec ⟨[(7, ["/x"])], [], [], [], [], [], []⟩ 7
      none none none none none none).2

/-! ## The comparison session (comparesession.py) -/

/-- A Python value as it flows through `do_compare`'s reused
flag/attribute locals (`name`, `file_type`, ...): initially the `bool`
flag argument, afterwards either a metadata value or `None`. -/
inductive PyV
  | pbool (b : Bool)
  | pstr (s : String)
  | pnat (n : Nat)
  | pnone
  deriving DecidableEq, Repr

/-- Python truthiness of a `PyV` (`if name:`). -/
def PyV.truthy : PyV → Bool
  | pbool b => b
  | pstr s => !(s == "")
  | pnat n => !(n == 0)
  | pnone => false

/-- The string value a `PyV` passes on as an optional argument. -/
def PyV.toOptStr : PyV → Option String
  | pstr s => some s
  | _ => none

/-- The numeric value a `PyV` passes on as an optional argument. -/
def PyV.toOptNat : PyV → Option Nat
  | pnat n => some n
  | _ => none

/-- The per-file attribute record produced by the external scanner
(`get_metadata`); the fields `do_compare` reads. -/
structure Metadata where
  name : String
  file_type : String
  parent : String
  rel_path : String
  size : Nat
  ctime : Nat
  mtime : Nat
  deriving DecidableEq, Repr

/-- The six reused attribute locals of `do_compare`. -/
structure AttrVars where
  name : PyV
  file_type : PyV
  parent : PyV
  rel_path : PyV
  ctime : PyV
  mtime : PyV
  deriving DecidableEq, Repr

/-- One record's `if name: name = metadata["name"] / else: name = None`
block for a string attribute: the local keeps the record's value when its
previous value was truthy, and becomes `None` otherwise. -/
def stepStr (v : PyV) (m : String) : PyV :=
  if v.truthy then PyV.pstr m else PyV.pnone

/-- The numeric-attribute analogue of `stepStr` (ctime/mtime). -/
def stepNat (v : PyV) (m : Nat) : PyV :=
  if v.truthy then PyV.pnat m else PyV.pnone

/-- All six attribute-local updates for one query record. -/
def AttrVars.step (v : AttrVars) (m : Metadata) : AttrVars :=
  { name := stepStr v.name m.name
    file_type := stepStr v.file_type m.file_type
    parent := stepStr v.parent m.parent
    rel_path := stepStr v.rel_path m.rel_path
    ctime := stepNat v.ctime m.ctime
    mtime := stepNat v.mtime m.mtime }

/-- The argument tuple `do_compare` passes to `get_intersection` for one
query record (recorded for inspection). -/
structure IssuedQuery where
  size : Nat
  name : Option String
  file_type : Option String
  parent : Option String
  rel_path : Option String
  ctime : Option Nat
  mtime : Option Nat
  deriving DecidableEq, Repr

/-- The classification state a `Session` accumulates during `do_compare`:
`duplicates` maps a query path to the ordered list of canonical matches
recorded for it; the four path collections are Python sets; `checksum` is
the per-session checksum cache. -/
structure CmpState where
  duplicates : List (String × List String)
  unique : List String
  skipped_self : List String
  source_error_files : List String
  possible_match_error_files : List String
  checksum : List (String × String)
  pre_computed_checksum_count : Nat
  deriving DecidableEq, Repr

/-- A `CmpState` with nothing recorded (a fresh `Session`). -/
def CmpState.empty : CmpState :=
  ⟨[], [], [], [], [], [], 0⟩

/-- Python `set.add`: insert a path if not already present. -/
def addToSet (l : List String) (x : String) : List String :=
  if l.contains x then l else x :: l

/-- Method `Session._append_match`: append `v` to the list stored under `k`,
creating the entry on a `KeyError`. -/
def alistAppend : List (String × List String) → String → String → List (String × List String)
  | [], k, v => [(k, [v])]
  | (k', vs) :: rest, k, v =>
    if k' == k then (k', vs ++ [v]) :: rest else (k', vs) :: alistAppend rest k v

/-- Method `Session._store_checksum_in_cache`: set the cache entry for `k`. -/
def alistSet : List (String × String) → String → String → List (String × String)
  | [], k, v => [(k, v)]
  | (k', v') :: rest, k, v =>
    if k' == k then (k, v) :: rest else (k', v') :: alistSet rest k v

/-- The `for possible_match_p in possible_matches:` loop body of
`do_compare`, for one query path `file_p`.  Returns the updated state and
the final values of the Python locals `match` and `skip`.  The `except
AssertionError` handler records each of the two paths only when it no
longer exists, then continues with the next candidate; the only error
`compare_files` can raise here is its `AssertionError` (once its asserts
pass, both paths are regular files and every open succeeds). -/
def candidateLoop (fs : FS) (skip_checksum : Bool) (file_p : String) :
    List String → CmpState → Bool → Bool → CmpState × Bool × Bool
  | [], st, m, sk => (st, m, sk)
  | cand :: rest, st, m, sk =>
    if file_p == cand then
      candidateLoop fs skip_checksum file_p rest
        { st with skipped_self := addToSet st.skipped_self file_p } m true
    else if skip_checksum then
      candidateLoop fs skip_checksum file_p rest
        { st with duplicates := alistAppend st.duplicates file_p cand } true sk
    else
      let cached := st.checksum.lookup cand
      let st1 :=
        if cached.isSome then
          { st with pre_computed_checksum_count := st.pre_computed_checksum_count + 1 }
        else st
      match compare_files fs file_p cand none cached with
      | Except.error _ =>
        let st2 :=
          if pathExists fs file_p then st1
          else { st1 with source_error_files := addToSet st1.source_error_files file_p }
        let st3 :=
          if pathExists fs cand then st2
          else { st2 with
                 possible_match_error_files := addToSet st2.possible_match_error_files cand }
        candidateLoop fs skip_checksum file_p rest st3 m sk
      | Except.ok cs =>
        if optStrTruthy cs then
          candidateLoop fs skip_checksum file_p rest
            { st1 with
              checksum := alistSet st1.checksum cand (cs.getD "")
              duplicates := alistAppend st1.duplicates file_p cand } true sk
        else
          candidateLoop fs skip_checksum file_p rest st1 m sk

/-- The candidate loop followed by `do_compare`'s final classification
(`if not match: if not skip or (skip and len(possible_matches) > 1):
mark unique`) for one query path. -/
def classify (fs : FS) (skip_checksum : Bool) (file_p : String)
    (cands : List String) (st : CmpState) : CmpState :=
  match candidateLoop fs skip_checksum file_p cands st false false with
  | (st', m, sk) =>
    if !m && (!sk || decide (cands.length > 1)) then
      { st' with unique := addToSet st'.unique file_p }
    else st'

/-- One full iteration of `do_compare`'s `for file_p, metadata in
self.query_scan.files.items():` loop: update the attribute locals, issue
the candidate query, and classify.  Also returns the query issued. -/
def processRecord (fs : FS) (cf : CanonicalFiles) (skip_checksum : Bool)
    (v : AttrVars) (st : CmpState) (file_p : String) (md : Metadata) :
    AttrVars × CmpState × IssuedQuery :=
  let v' := v.step md
  let q : IssuedQuery :=
    ⟨md.size, v'.name.toOptStr, v'.file_type.toOptStr, v'.parent.toOptStr,
     v'.rel_path.toOptStr, v'.ctime.toOptNat, v'.mtime.toOptNat⟩
  let cands := get_intersection cf q.size q.name q.file_type q.parent q.rel_path q.ctime q.mtime
  if cands.length == 0 then
    (v', { st with unique := addToSet st.unique file_p }, q)
  else
    (v', classify fs skip_checksum file_p cands st, q)

/-- The record loop of `do_compare`, threading the reused attribute
locals from one record to the next, and collecting the issued queries. -/
def doCompareLoop (fs : FS) (cf : CanonicalFiles) (skip_checksum : Bool) :
    AttrVars → CmpState → List (String × Metadata) → List IssuedQuery →
    CmpState × List IssuedQuery
  | _, st, [], qs => (st, qs)
  | v, st, (fp, md) :: rest, qs =>
    match processRecord fs cf skip_checksum v st fp md with
    | (v', st', q) => doCompareLoop fs cf skip_checksum v' st' rest (qs ++ [q])

/-- Method `Session.do_compare`, run to exhaustion (in the Python source it is a
generator; this is the effect of iterating it to the end).  The seven
flag arguments are bundled positionally: name, file_type, parent,
rel_path, ctime, mtime, skip_checksum. -/
def doCompare (fs : FS) (cf : CanonicalFiles)
    (fName fType fParent fRelPath fCtime fMtime skip_checksum : Bool)
    (queryFiles : List (String × Metadata)) (st0 : CmpState) :
    Except PyErr (CmpState × List IssuedQuery) :=
  if skip_checksum && !fName then Except.error PyErr.assertError
  else
    Except.ok (doCompareLoop fs cf skip_checksum
      ⟨PyV.pbool fName, PyV.pbool fType, PyV.pbool fParent,
       PyV.pbool fRelPath, PyV.pbool fCtime, PyV.pbool fMtime⟩
      st0 queryFiles [])

/-! ## Claims about `do_compare` -/

/-- The candidate loop's final `skip` local is set exactly when the query
path occurred among the candidates. -/
theorem candidateLoop_sk (fs : FS) (skipC : Bool) (file_p : String) :
    ∀ (cands : List String) (st : CmpState) (m sk : Bool),
      (candidateLoop fs skipC file_p cands st m sk).2.2 = (sk || cands.contains file_p) := by
  intro cands
  induction cands with
  | nil => intro st m sk; simp [candidateLoop]
  | cons c rest ih =>
    intro st m sk
    by_cases hc : file_p = c
    · subst hc
      simp [candidateLoop, ih]
    · have hb : (file_p == c) = false := by simp [hc]
      by_cases hsc : skipC = true
      · subst hsc
        simp [candidateLoop, hb, ih, hc]
      · simp only [Bool.not_eq_true] at hsc
        subst hsc
        cases hcmp : compare_files fs file_p c none (st.checksum.lookup c) with
        | error e => simp [candidateLoop, hb, hcmp, ih, hc]
        | ok cs =>
          by_cases ht : optStrTruthy cs <;>
            simp [candidateLoop, hb, hcmp, ht, ih, hc]

/-- The candidate loop never touches the `unique` set. -/
theorem candidateLoop_unique (fs : FS) (skipC : Bool) (file_p : String) :
    ∀ (cands : List String) (st : CmpState) (m sk : Bool),
      (candidateLoop fs skipC file_p cands st m sk).1.unique = st.unique := by
  intro cands
  induction cands with
  | nil => intro st m sk; simp [candidateLoop]
  | cons c rest ih =>
    intro st m sk
    by_cases hc : file_p = c
    · subst hc
      simp [candidateLoop, ih]
    · have hb : (file_p == c) = false := by simp [hc]
      by_cases hsc : skipC = true
      · subst hsc
        simp [candidateLoop, hb, ih]
      · simp only [Bool.not_eq_true] at hsc
        subst hsc
        cases hcmp : compare_files fs file_p c none (st.checksum.lookup c) with
        | error e =>
          simp [candidateLoop, hb, hcmp, ih]
          split_ifs <;> simp
        | ok cs =>
          by_cases ht : optStrTruthy cs <;>
            simp [candidateLoop, hb, hcmp, ht, ih] <;>
          split_ifs <;> simp

/-- Function `addToSet` really adds: the added element is contained afterwards. -/
theorem contains_addToSet_self (l : List String) (x : String) :
    (addToSet l x).contains x = true := by
  unfold addToSet
  by_cases h : l.contains x <;> simp_all

/-- C5: within one `do_compare` iteration, a query path with at least one
candidate is classified unique exactly when no match was recorded for it
and the candidate set was not the single self-candidate `[file_p]` (and
was not already unique beforehand).  In particular, when the only
candidate was the query path itself the path is neither marked unique nor
recorded as a duplicate. -/
theorem classify_unique_iff (fs : FS) (skipC : Bool) (file_p : String)
    (cands : List String) (st : CmpState) (hne : cands ≠ []) :
    ((classify fs skipC file_p cands st).unique.contains file_p = true ↔
      (st.unique.contains file_p = true ∨
        ((candidateLoop fs skipC file_p cands st false false).2.1 = false ∧
          cands ≠ [file_p]))) := by
  unfold classify
  have hu := candidateLoop_unique fs skipC file_p cands st false false
  have hsk := candidateLoop_sk fs skipC file_p cands st false false
  rcases hr : candidateLoop fs skipC file_p cands st false false with ⟨st', m, sk⟩
  rw [hr] at hu hsk
  simp only [Bool.false_or] at hsk
  dsimp only
  by_cases hcond : (!m && (!sk || decide (cands.length > 1))) = true
  · rw [if_pos hcond]
    have hcond' : m = false ∧ (sk = false ∨ 1 < cands.length) := by
      simpa using hcond
    have hcne : cands ≠ [file_p] := by
      intro hceq
      subst hceq
      rcases hcond'.2 with h3 | h3
      · simp at hsk
        rw [h3] at hsk
        exact Bool.false_ne_true hsk
      · simp at h3
    constructor
    · intro _
      exact Or.inr ⟨hcond'.1, hcne⟩
    · intro _
      show (addToSet st'.unique file_p).contains file_p = true
      exact contains_addToSet_self st'.unique file_p
  · rw [if_neg hcond]
    rw [hu]
    constructor
    · intro h
      exact Or.inl h
    · rintro (h | ⟨hm, hcne⟩)
      · exact h
      · exfalso
        subst hm
        have hcond' : sk = true ∧ cands.length ≤ 1 := by
          rcases Bool.eq_false_or_eq_true sk with hskv | hskv
          · refine ⟨hskv, ?_⟩
            by_contra hl
            exact hcond (by simp [hskv]; omega)
          · exact absurd (by simp [hskv]) hcond
        rw [hcond'.1] at hsk
        have hmem : file_p ∈ cands := by
          have := hsk.symm
          simpa using this
        have hl1 : cands.length = 1 := by
          have : 1 ≤ cands.length := by
            cases cands with
            | nil => exact absurd rfl hne
            | cons a l => simp
          omega
        rcases List.length_eq_one.mp hl1 with ⟨a, ha⟩
        subst ha
        have : file_p = a := by simpa using hmem
        subst this
        exact hcne rfl

/-- Witness for `classify_unique_iff`: the single self-candidate case —
the path ends up neither unique (left side false) nor matched. -/
theorem classify_unique_iff_witness :
    ((classify [("/q", Entry.file [1])] false "/q" ["/q"] CmpState.empty).unique.contains
        "/q" = true ↔
      (CmpState.empty.unique.contains "/q" = true ∨
        ((candidateLoop [("/q", Entry.file [1])] false "/q" ["/q"] CmpState.empty
            false false).2.1 = false ∧ ["/q"] ≠ ["/q"]))) :=
  classify_unique_iff [("/q", Entry.file [1])] false "/q" ["/q"] CmpState.empty (by decide)

/-- A query file and a candidate that is (now) a directory: it still
exists, so the error handler records nothing. -/
def fsDirCand : FS := [("/q", Entry.file [1]), ("/c", Entry.dir)]

/-- C8 counterexample: the candidate `/c` changed type to a directory, so
`compare_files` fails — but since the path still exists, it is recorded in
neither `possible_match_error_files` nor `source_error_files` (the pass
does continue). -/
theorem compare_error_not_recorded_cex :
    compare_files fsDirCand "/q" "/c" none none = Except.error PyErr.assertError ∧
    pathExists fsDirCand "/c" = true ∧
    (candidateLoop fsDirCand false "/q" ["/c"] CmpState.empty false
        false).1.possible_match_error_files = [] ∧
    (candidateLoop fsDirCand false "/q" ["/c"] CmpState.empty false
        false).1.source_error_files = [] :=
  ⟨rfl, rfl, rfl, rfl⟩

/-- C8 (amended): whenever `compare_files` raises on a query/candidate
pair, the pass continues with the remaining candidates (never aborts) and
the two `match`/`skip` locals are untouched; each of the two paths is
recorded in its error set only when it no longer exists — a path that
still exists but changed type (directory or symlink) is not recorded. -/
theorem candidateLoop_error_step (fs : FS) (file_p cand : String)
    (rest : List String) (st : CmpState) (m sk : Bool) (e : PyErr)
    (hne : (file_p == cand) = false)
    (herr : compare_files fs file_p cand none (st.checksum.lookup cand) =
      Except.error e) :
    candidateLoop fs false file_p (cand :: rest) st m sk =
      candidateLoop fs false file_p rest
        { st with
          pre_computed_checksum_count :=
            st.pre_computed_checksum_count +
              (if (st.checksum.lookup cand).isSome then 1 else 0)
          source_error_files :=
            if pathExists fs file_p then st.source_error_files
            else addToSet st.source_error_files file_p
          possible_match_error_files :=
            if pathExists fs cand then st.possible_match_error_files
            else addToSet st.possible_match_error_files cand }
        m sk := by
  cases hs : st.checksum.lookup cand with
  | none =>
    rw [hs] at herr
    by_cases hp : pathExists fs file_p = true <;>
      by_cases hq : pathExists fs cand = true <;>
        simp [candidateLoop, hne, hs, herr, hp, hq]
  | some c0 =>
    rw [hs] at herr
    by_cases hp : pathExists fs file_p = true <;>
      by_cases hq : pathExists fs cand = true <;>
        simp [candidateLoop, hne, hs, herr, hp, hq]

/-- Witness for `candidateLoop_error_step`: a vanished candidate is
recorded in `possible_match_error_files` and the loop continues. -/
theorem candidateLoop_error_step_witness :
    candidateLoop [("/q", Entry.file [1])] false "/q" ["/gone"] CmpState.empty
        false false =
      candidateLoop [("/q", Entry.file [1])] false "/q" []
        { CmpState.empty with possible_match_error_files := ["/gone"] }
        false false := by
  rw [candidateLoop_error_step [("/q", Entry.file [1])] "/q" "/gone" []
    CmpState.empty false false PyErr.assertError (by decide) (by rfl)]
  decide

/-- The two query records of the C4 scenario: the first file has no
extension (so its `file_type` metadata is the empty string), the second
has extension `.txt`. -/
def recsC4 : List (String × Metadata) :=
  [("/q/noext", ⟨"noext", "", "q", "noext", 3, 1, 1⟩),
   ("/q/b.txt", ⟨"b.txt", ".txt", "q", "b.txt", 3, 1, 1⟩)]

/-- C4: running `do_compare` with only the `file_type` flag enabled over
`recsC4`, the query issued for the second record carries `file_type =
none` — not the record's own `.txt` — because the loop overwrote the
`file_type` local with the first record's falsy `""` value.  The second
conjunct records the two files' own `file_type` metadata values for
contrast. -/
theorem do_compare_flag_leak :
    (doCompare [] CanonicalFiles.empty false true false false false false false
        recsC4 CmpState.empty).map
      (fun r => r.2.map (fun q => q.file_type)) = Except.ok [some "", none] ∧
    recsC4.map (fun r => r.2.file_type) = ["", ".txt"] :=
  ⟨rfl, rfl⟩

/-! ## Path utilities (posix semantics used by versionedfiles.py) -/

/-- Python `s.startswith(p)`. -/
def pyStartswith (s p : String) : Bool :=
  s.data.take p.data.length == p.data

/-- Python `s.lstrip(os.sep)` with `os.sep = "/"`. -/
def lstripSlash (s : String) : String :=
  String.mk (s.data.dropWhile (fun c => c == '/'))

/-- Python `str(n).rjust(width, c)`. -/
def rjust (s : String) (width : Nat) (c : Char) : String :=
  if s.data.length < width then
    String.mk (List.replicate (width - s.data.length) c ++ s.data)
  else s

/-- Model of `os.path.split`: break at the last slash; the head keeps a root slash
but otherwise loses trailing slashes. -/
def splitPath (p : String) : String × String :=
  let rev := p.data.reverse
  let tail := (rev.takeWhile (fun c => c ≠ '/')).reverse
  let headAll := (rev.dropWhile (fun c => c ≠ '/')).reverse
  let head :=
    if headAll.all (fun c => c == '/') then headAll
    else (headAll.reverse.dropWhile (fun c => c == '/')).reverse
  (String.mk head, String.mk tail)

/-- Model of `os.path.splitext` on a bare file name: split at the last dot, except
that a name consisting of leading dots only is not split. -/
def splitExt (n : String) : String × String :=
  let rev := n.data.reverse
  let extRev := rev.takeWhile (fun c => c ≠ '.')
  match rev.dropWhile (fun c => c ≠ '.') with
  | [] => (n, "")
  | _ :: preRev =>
    if preRev.all (fun c => c == '.') then (n, "")
    else (String.mk preRev.reverse, String.mk ('.' :: extRev.reverse))

/-- Two-argument `os.path.join`. -/
def joinPath (a b : String) : String :=
  if b.data.head? = some '/' then b
  else if a = "" then b
  else if a.data.getLast? = some '/' then a ++ b
  else a ++ "/" ++ b

/-- Split a list of characters at slashes. -/
def splitOnSlash : List Char → List (List Char)
  | [] => [[]]
  | c :: rest =>
    match splitOnSlash rest with
    | [] => [[]]
    | g :: gs => if c = '/' then [] :: g :: gs else (c :: g) :: gs

/-- The nonempty components of an absolute path. -/
def pathComps (p : String) : List String :=
  ((splitOnSlash p.data).filter (fun l => l ≠ [])).map String.mk

/-- Length of the common prefix of two component lists. -/
def commonLen : List String → List String → Nat
  | a :: as, b :: bs => if a = b then commonLen as bs + 1 else 0
  | _, _ => 0

/-- Model of `os.path.relpath(target, start)` for absolute normalized paths: climb
out of the uncommon part of `start` with `..` segments, then descend into
the uncommon part of `target`. -/
def relpath (target start : String) : String :=
  let t := pathComps target
  let s := pathComps start
  let i := commonLen t s
  let rel := List.replicate (s.length - i) ".." ++ t.drop i
  if rel = [] then "." else String.intercalate "/" rel

/-! ## Filesystem side effects (copy, symlink, makedirs, unlink) -/

/-- Model of `os.makedirs(d, exist_ok=True)`.  Intermediate ancestor directories
are elided: no claim observes them. -/
def makedirs (fs : FS) (d : String) : FS :=
  if pathExists fs d then fs else (d, Entry.dir) :: fs

/-- Model of `os.unlink(p)`: remove the entry itself (not a link's target). -/
def unlink (fs : FS) (p : String) : FS :=
  fs.filter (fun e => !(e.1 == p))

/-- Model of `os.symlink(target, linkp)`. -/
def symlink (fs : FS) (target linkp : String) : FS :=
  (linkp, Entry.link target) :: fs

/-- Model of `shutil.copy(src, dst)`: write `dst` with `src`'s (resolved) bytes.
When `src` cannot be opened the Python call would raise; the claims only
exercise it on validated regular files, where it always succeeds. -/
def copyFile (fs : FS) (src dst : String) : FS :=
  match openBytes fs src with
  | some bs => (dst, Entry.file bs) :: unlink fs dst
  | none => fs

/-! ## The deduplicating copy store (versionedfiles.py) -/

/-- Function `verified_copy_file`: copy, then compare source and destination,
raising an `IOError` when the comparison comes back falsy. -/
def verified_copy_file (fs : FS) (src dst : String) : FS × Except PyErr Unit :=
  let fs' := copyFile fs src dst
  match compare_files fs' src dst none none with
  | Except.ok cs =>
    if optStrTruthy cs then (fs', Except.ok ()) else (fs', Except.error PyErr.ioError)
  | Except.error e => (fs', Except.error e)

/-- Python `version += 1` on the reused `version` local of
`copy_and_add_ver_num`: an `int` increments; after the first loop
iteration the local holds the version *string*, and `str + int` raises a
`TypeError`. -/
def pyIncr (v : PyV) : Except PyErr Nat :=
  match v with
  | PyV.pnat n => Except.ok (n + 1)
  | _ => Except.error PyErr.typeError

/-- The `while True:` loop of `copy_and_add_ver_num`.  Each iteration does
`version += 1`, builds `{base}.{prefix}{padded}{ext}` and stops at the
first name that does not exist — but it also overwrites `version` with
the version string, so a second iteration always raises `TypeError`.
Fuel 2 therefore covers every possible run. -/
def verLoop (fs : FS) (dest_d base ext vpre : String) (num_digits : Nat) :
    PyV → Nat → Except PyErr String
  | _, 0 => Except.error PyErr.osError
  | v, fuel + 1 =>
    match pyIncr v with
    | Except.error e => Except.error e
    | Except.ok n =>
      let vstr := "." ++ vpre ++ rjust (toString n) num_digits '0'
      let dp := joinPath dest_d (base ++ vstr ++ ext)
      if !(pathExists fs dp) then Except.ok dp
      else verLoop fs dest_d base ext vpre num_digits (PyV.pstr vstr) fuel

/-- Function `copy_and_add_ver_num`: find a free versioned name for the
destination and copy the source there (optionally verified).  Returns the
final filesystem and the chosen path (or the raised error, with the
filesystem untouched — every raise happens before the copy). -/
def copy_and_add_ver_num (fs : FS) (source_p dest_p vpre : String)
    (num_digits : Nat) (do_verified : Bool) : FS × Except PyErr String :=
  let dn := splitPath dest_p
  let be := splitExt dn.2
  match verLoop fs dn.1 be.1 be.2 vpre num_digits (PyV.pnat 0) 2 with
  | Except.error e => (fs, Except.error e)
  | Except.ok dp =>
    if do_verified then
      match verified_copy_file fs source_p dp with
      | (fs', Except.ok _) => (fs', Except.ok dp)
      | (fs', Except.error e) => (fs', Except.error e)
    else (copyFile fs source_p dp, Except.ok dp)

/-- Structure `Copydescriptor` (copydescriptor.py, documented in the spec's data
model): one intended logical copy. -/
structure Copydescriptor where
  source_p : String
  dest_relative_p : String
  link_in_place : Bool
  deriving DecidableEq, Repr

/-- The `Session` state the copy store holds: the raw `query_items`
assignment, the canonical index and the classification state. -/
structure Session where
  query_items : Option String
  canonical : CanonicalFiles
  st : CmpState
  deriving Repr

/-- Constructor `Session(query_items=None, canonical_dir=data_d)`: fresh empty
indices and result sets. -/
def Session.new : Session :=
  ⟨none, CanonicalFiles.empty, CmpState.empty⟩

/-- Insert a path into one inverted sub-index under a key
(`CanonicalFiles._append_to_dict`, set semantics). -/
def addToIndex {κ : Type} [BEq κ] : List (κ × List String) → κ → String → List (κ × List String)
  | [], k, p => [(k, [p])]
  | (k', ps) :: rest, k, p =>
    if k' == k then (k', addToSet ps p) :: rest else (k', ps) :: addToIndex rest k p

/-- Function `get_metadata` (scanfs/metadata.py) over the filesystem model: name,
extension, parent directory name, path relative to the root, and the
no-follow stat size.  The model's filesystem carries no timestamps, so
`ctime`/`mtime` are 0; nothing in the verified claims observes them. -/
def get_metadata (fs : FS) (file_p root_p : String) : Metadata :=
  let name := (splitPath file_p).2
  { name := name
    file_type := (splitExt name).2
    parent := (splitPath (splitPath file_p).1).2
    rel_path := relpath file_p root_p
    size := (sizeNoFollow fs file_p).getD 0
    ctime := 0
    mtime := 0 }

/-- Modelled from the spec: `Session.append_to_canonical_scan` delegates
to the external `ScanFiles.append_file` (package `bvzscanfilesystem`, not
part of this repository), which the spec describes as "add one file's
record directly to the corresponding index".  The record comes from
`get_metadata` (in this repository) with root `bvzos.fs.path.get_root() =
"/"`, and the per-attribute insertion is `CanonicalFiles._append_to_scan`
(in this repository). -/
def append_to_canonical (fs : FS) (s : Session) (file_p : String) : Session :=
  let md := get_metadata fs file_p "/"
  { s with canonical :=
    { by_size := addToIndex s.canonical.by_size md.size file_p
      by_name := addToIndex s.canonical.by_name md.name file_p
      by_type := addToIndex s.canonical.by_type md.file_type file_p
      by_parent := addToIndex s.canonical.by_parent md.parent file_p
      by_rel_path := addToIndex s.canonical.by_rel_path md.rel_path file_p
      by_ctime := addToIndex s.canonical.by_ctime md.ctime file_p
      by_mtime := addToIndex s.canonical.by_mtime md.mtime file_p } }

/-- The symlink-placement tail of `copy_file_deduplicated`: create the
destination's parent, remove any existing entry at the destination and
link it to the data file through a path relative to the destination's
parent directory. -/
def finishLink (fs : FS) (dest_p data_file_p : String) : FS :=
  let fs1 := makedirs fs (splitPath dest_p).1
  let rel := relpath data_file_p (splitPath dest_p).1
  let fs2 := if pathExists fs1 dest_p then unlink fs1 dest_p else fs1
  symlink fs2 rel dest_p

/-- Function `copy_file_deduplicated`.  NOTE, faithful to the source:
`do_query_scan()` and `do_compare()` are generator functions; the source
calls them without iterating the returned generator objects, so none of
their body code ever runs and the session state is unchanged by those two
lines — `duplicates` can only hold whatever it held before. -/
def copy_file_deduplicated (fs : FS) (s : Session)
    (source_p dest_p data_d vpre : String) (num_digits : Nat)
    (do_verified : Bool) : FS × Session × Except PyErr String :=
  if pyStartswith dest_p data_d then (fs, s, Except.error PyErr.valueError)
  else if !(isFile fs source_p) then (fs, s, Except.error PyErr.valueError)
  else
    let s1 := { s with query_items := some source_p }
    -- `compare_session_obj.do_query_scan()` and `...do_compare()`:
    -- generators created and discarded, no effect.
    if s1.st.duplicates.isEmpty then
      let dest_n := (splitPath dest_p).2
      match copy_and_add_ver_num fs source_p (joinPath data_d dest_n) vpre
          num_digits do_verified with
      | (fs', Except.error e) => (fs', s1, Except.error e)
      | (fs', Except.ok data_file_p) =>
        let s2 := append_to_canonical fs' s1 data_file_p
        (finishLink fs' dest_p data_file_p, s2, Except.ok data_file_p)
    else
      match s1.st.duplicates.lookup source_p with
      | some (d :: _) => (finishLink fs dest_p d, s1, Except.ok d)
      | _ => (fs, s1, Except.error PyErr.keyError)

/-- The `for copydescriptor in copydescriptors:` loop of
`copy_files_deduplicated`: link-in-place descriptors get a direct symlink
to the (absolute) source; the rest go through the dedup copy, extending
the output mapping.  An exception stops the loop, keeping the completed
descriptors' effects. -/
def cfdLoop (data_d dest_d vpre : String) (num_digits : Nat) (do_verified : Bool) :
    FS → Session → List Copydescriptor → List (String × String) →
    FS × Except PyErr (List (String × String))
  | fs, _, [], out => (fs, Except.ok out)
  | fs, s, c :: rest, out =>
    let dest_p := joinPath dest_d (lstripSlash c.dest_relative_p)
    if c.link_in_place then
      let fs1 := makedirs fs (splitPath dest_p).1
      let fs2 := if pathExists fs1 dest_p then unlink fs1 dest_p else fs1
      cfdLoop data_d dest_d vpre num_digits do_verified
        (symlink fs2 c.source_p dest_p) s rest out
    else
      match copy_file_deduplicated fs s c.source_p dest_p data_d vpre
          num_digits do_verified with
      | (fs', s', Except.ok dp) =>
        cfdLoop data_d dest_d vpre num_digits do_verified fs' s' rest
          (out ++ [(c.source_p, dp)])
      | (fs', _, Except.error e) => (fs', Except.error e)

/-- Function `copy_files_deduplicated`.  Validates that the destination root is not
(string-prefix) inside the data directory and that every source is an
existing regular file — both before any filesystem mutation — then builds
one fresh `Session`.  NOTE, faithful to the source:
`compare_session_obj.do_canonical_scan()` is a generator function called
without iterating the result, so the canonical scan never actually runs
and the session keeps its empty state. -/
def copy_files_deduplicated (fs : FS) (cds : List Copydescriptor)
    (dest_d data_d vpre : String) (num_digits : Nat) (do_verified : Bool) :
    FS × Except PyErr (List (String × String)) :=
  if pyStartswith dest_d data_d then (fs, Except.error PyErr.valueError)
  else if cds.any (fun c => !(pathExists fs c.source_p) || !(isFile fs c.source_p)) then
    (fs, Except.error PyErr.valueError)
  else
    -- `Session(query_items=None, canonical_dir=data_d)`;
    -- `do_canonical_scan()`: generator created and discarded, no effect.
    cfdLoop data_d dest_d vpre num_digits do_verified fs Session.new cds []

/-- The physical (regular-file) entries lying under the data directory. -/
def dataFiles (fs : FS) (d : String) : List String :=
  (fs.filter (fun e =>
    pyStartswith e.1 (d ++ "/") &&
      (match e.2 with | Entry.file _ => true | _ => false))).map (·.1)

/-! ## Claims about the copy store -/

/-- A string-prefix destination is rejected: the very first statement of
`copy_files_deduplicated` raises. -/
theorem pyStartswith_append (a b : String) : pyStartswith (a ++ b) a = true := by
  simp [pyStartswith, String.data_append, List.take_left]

/-- C9: calling `copy_files_deduplicated` with a destination root lying
under the data root (any `data_d ++ extra`, e.g. `data_d ++ "/sub"`)
fails with the Python `ValueError` raised before any other statement, and
the filesystem is returned untouched: no files, directories or symlinks
are created. -/
theorem copy_files_deduplicated_nested_dest (fs : FS) (cds : List Copydescriptor)
    (data_d extra vpre : String) (num_digits : Nat) (do_verified : Bool) :
    copy_files_deduplicated fs cds (data_d ++ extra) data_d vpre num_digits
        do_verified = (fs, Except.error PyErr.valueError) := by
  simp [copy_files_deduplicated, pyStartswith_append]

/-- An empty data directory plus one source file. -/
def fsVer0 : FS := [("/data", Entry.dir), ("/src/x.txt", Entry.file [7])]

/-- A data directory already holding `x.v0001.txt` (N = 1). -/
def fsVer1 : FS :=
  [("/data", Entry.dir), ("/data/x.v0001.txt", Entry.file [7]),
   ("/src/x.txt", Entry.file [7])]

/-- C2: with no pre-existing version, `copy_and_add_ver_num` places the
copy at `v0001` (the claim's N + 1 for N = 0); but with one pre-existing
`x.v0001.txt` (N = 1) it raises a `TypeError` instead of choosing
`v0002`: the loop overwrote its integer `version` local with the version
string, so the second iteration's `version += 1` is `str + int`.  The
filesystem is untouched by the failing call. -/
theorem copy_and_add_ver_num_bug :
    (copy_and_add_ver_num fsVer0 "/src/x.txt" "/data/x.txt" "v" 4 false).2 =
      Except.ok "/data/x.v0001.txt" ∧
    copy_and_add_ver_num fsVer1 "/src/x.txt" "/data/x.txt" "v" 4 false =
      (fsVer1, Except.error PyErr.typeError) :=
  ⟨rfl, rfl⟩

/-- An empty store, an empty destination tree, and two sources with
identical bytes under different base names. -/
def fsC1 : FS :=
  [("/data", Entry.dir), ("/dest", Entry.dir), ("/src", Entry.dir),
   ("/src/x.txt", Entry.file [104, 105]), ("/src/y.txt", Entry.file [104, 105])]

/-- Two copy descriptors (`link_in_place = false`) for the identical
sources. -/
def cdsC1 : List Copydescriptor :=
  [⟨"/src/x.txt", "x.txt", false⟩, ⟨"/src/y.txt", "y.txt", false⟩]

/-- C1: copying two byte-identical descriptors into an empty store
creates TWO physical files in the data directory, and the two destination
symlinks resolve to two different physical files — not the claimed single
deduplicated file.  The scan/compare generator objects created by
`copy_files_deduplicated`/`copy_file_deduplicated` are never iterated, so
`duplicates` stays empty and every descriptor is physically copied. -/
theorem copy_files_deduplicated_no_dedup :
    (copy_files_deduplicated fsC1 cdsC1 "/dest" "/data" "v" 4 false).2 =
      Except.ok [("/src/x.txt", "/data/x.v0001.txt"),
                 ("/src/y.txt", "/data/y.v0001.txt")] ∧
    dataFiles (copy_files_deduplicated fsC1 cdsC1 "/dest" "/data" "v" 4 false).1
        "/data" = ["/data/y.v0001.txt", "/data/x.v0001.txt"] ∧
    (dataFiles (copy_files_deduplicated fsC1 cdsC1 "/dest" "/data" "v" 4 false).1
        "/data").length = 2 ∧
    fsLookup (copy_files_deduplicated fsC1 cdsC1 "/dest" "/data" "v" 4 false).1
        "/dest/x.txt" = some (Entry.link "../data/x.v0001.txt") ∧
    fsLookup (copy_files_deduplicated fsC1 cdsC1 "/dest" "/data" "v" 4 false).1
        "/dest/y.txt" = some (Entry.link "../data/y.v0001.txt") :=
  ⟨rfl, rfl, rfl, rfl, rfl⟩
